import Mathlib

/-!
Verification development for `scripts/generate_lua_bridges.py` of the
zig_llms repository: a batch generator that renders, for each configured API
domain, a Zig source module bridging that domain's functions and constants
into an embedded Lua runtime.

The Python source is embedded shallowly: every string-building step of
`generate_bridge_file` is reproduced byte-for-byte as a Lean function on
`String`, the static `BRIDGE_CONFIGS` table is transcribed literally, and the
batch loop of `main` is modelled as a fold that records the writes it
performs, parametrised by which domain (if any) raises an error.

All strings in the source are ASCII, so the Python string methods `title`,
`lower` and `replace` are embedded with their ASCII semantics.
-/

namespace GenLuaBridges

/-- One step of Python `str.title()` on ASCII text: an alphabetic character is
uppercased when the previous character was not alphabetic and lowercased when
it was; every other character passes through unchanged. -/
def titleChar (prevAlpha : Bool) (c : Char) : Char :=
  if c.isAlpha then (if prevAlpha then c.toLower else c.toUpper) else c

/-- Worker for `pyTitle`, tracking whether the previous character was
alphabetic (Python tracks "previous is cased"; on ASCII these agree). -/
def titleAux : Bool → List Char → List Char
  | _, [] => []
  | prev, c :: cs => titleChar prev c :: titleAux c.isAlpha cs

/-- Python `s.title()` for ASCII strings. -/
def pyTitle (s : String) : String :=
  String.mk (titleAux false s.data)

/-- Python `s.lower()` for ASCII strings. -/
def pyLower (s : String) : String :=
  String.mk (s.data.map Char.toLower)

/-- Python `s.replace('_', '')`: delete every underscore. -/
def removeUnderscores (s : String) : String :=
  String.mk (s.data.filter (fun c => c ≠ '_'))

/-- The derived wrapper identifier of source line 153:
`f"lua{bridge_name.title()}{func_name.title().replace('_', '')}"`.
Note that only the function name has its underscores removed; the
title-cased bridge (domain) name keeps them. -/
def lua_func_name (bridge_name func_name : String) : String :=
  "lua" ++ pyTitle bridge_name ++ removeUnderscores (pyTitle func_name)

/-- One bridge configuration dictionary (a value of `BRIDGE_CONFIGS`):
`functions` is the list of `(func_name, func_doc)` pairs, `constants` the
optional list of `(group name, symbolic values)` pairs — `none` models a
dictionary that omits the `"constants"` key, read in the source via
`config.get("constants", [])` — plus `import_name` and `description`. -/
structure Config where
  functions : List (String × String)
  constants : Option (List (String × List String))
  import_name : String
  description : String
deriving DecidableEq

/-- The registration-table entry of source line 154:
`f'        .{{ .name = "{func_name}", .func = {lua_func_name} }},'`. -/
def function_def_entry (bridge_name func_name : String) : String :=
  "        .\x7b .name = \"" ++ func_name ++ "\", .func = "
    ++ lua_func_name bridge_name func_name ++ " \x7d,"

/-- The wrapper implementation `func_impl` of source lines 157–193,
with `{{`/`}}` rendered as literal braces and the interpolations
`{func_doc}`, `{lua_func_name}`, `{bridge_name.title()}` and
`{func_name.replace('_', '')}` substituted. -/
def func_impl (bridge_name func_name func_doc : String) : String :=
  "\n/// " ++ func_doc ++ "\nexport fn " ++ lua_func_name bridge_name func_name
    ++ "(L: ?*lua.c.lua_State) c_int \x7b\n"
    ++ "    const context = LuaAPIBridge.getScriptContext(L) orelse \x7b\n"
    ++ "        return LuaAPIBridge.handleBridgeError(L, LuaAPIBridge.LuaAPIBridgeError.ScriptContextRequired);\n"
    ++ "    \x7d;\n"
    ++ "    \n"
    ++ "    // Convert arguments from Lua to ScriptValue\n"
    ++ "    const arg_count = lua.c.lua_gettop(L);\n"
    ++ "    var args = std.ArrayList(ScriptValue).init(context.allocator);\n"
    ++ "    defer \x7b\n"
    ++ "        for (args.items) |*arg| \x7b\n"
    ++ "            arg.deinit(context.allocator);\n"
    ++ "        \x7d\n"
    ++ "        args.deinit();\n"
    ++ "    \x7d;\n"
    ++ "    \n"
    ++ "    for (0..@intCast(arg_count)) |i| \x7b\n"
    ++ "        const arg_value = LuaValueConverter.pullScriptValue(context.allocator, L, @intCast(i + 1)) catch |err| \x7b\n"
    ++ "            return LuaAPIBridge.handleBridgeError(L, err);\n"
    ++ "        \x7d;\n"
    ++ "        try args.append(arg_value);\n"
    ++ "    \x7d\n"
    ++ "    \n"
    ++ "    // Call the bridge function\n"
    ++ "    const result = " ++ pyTitle bridge_name ++ "Bridge."
    ++ removeUnderscores func_name
    ++ "(context, args.items) catch |err| \x7b\n"
    ++ "        return LuaAPIBridge.handleBridgeError(L, err);\n"
    ++ "    \x7d;\n"
    ++ "    defer result.deinit(context.allocator);\n"
    ++ "    \n"
    ++ "    // Convert result back to Lua\n"
    ++ "    LuaValueConverter.pushScriptValue(context.allocator, L, result) catch |err| \x7b\n"
    ++ "        return LuaAPIBridge.handleBridgeError(L, err);\n"
    ++ "    \x7d;\n"
    ++ "    \n"
    ++ "    return 1;\n\x7d"

/-- The `const_block` built for a constant group in source lines 198–211:
a fresh table, one push/setfield pair per value — string value
`value.lower()`, field key the exact value name — then a setfield attaching
the table under the group's name. -/
def const_block (const_name : String) (const_values : List String) : String :=
  "\n    // " ++ const_name ++ " constants\n    lua.c.lua_newtable(L);\n    "
    ++ String.join (const_values.map (fun value =>
        "\n    lua.c.lua_pushstring(L, \"" ++ pyLower value ++ "\");\n"
          ++ "    lua.c.lua_setfield(L, -2, \"" ++ value ++ "\");"))
    ++ "\n    \n    lua.c.lua_setfield(L, -2, \"" ++ const_name ++ "\");"

/-- The `file_content` template from its start through the doc comment line
`/// Number of functions in this bridge` (source lines 214–231). -/
def module_header (bridge_name import_name description : String) : String :=
  "// ABOUTME: Lua C function wrappers for " ++ pyTitle bridge_name
    ++ " Bridge API\n"
    ++ "// ABOUTME: Provides Lua access to " ++ description ++ "\n"
    ++ "\n"
    ++ "const std = @import(\"std\");\n"
    ++ "const lua = @import(\"../../../bindings/lua/lua.zig\");\n"
    ++ "const LuaWrapper = lua.LuaWrapper;\n"
    ++ "const ScriptValue = @import(\"../../value_bridge.zig\").ScriptValue;\n"
    ++ "const ScriptContext = @import(\"../../context.zig\").ScriptContext;\n"
    ++ "const LuaValueConverter = @import(\"../lua_value_converter.zig\");\n"
    ++ "const LuaAPIBridge = @import(\"../lua_api_bridge.zig\");\n"
    ++ "\n"
    ++ "// Import the actual " ++ bridge_name ++ " bridge implementation\n"
    ++ "const " ++ pyTitle bridge_name
    ++ "Bridge = @import(\"../../api_bridges/" ++ bridge_name
    ++ "_bridge.zig\")." ++ pyTitle bridge_name ++ "Bridge;\n"
    ++ "\n"
    ++ "// Import zig_llms " ++ bridge_name ++ " API\n"
    ++ "const " ++ import_name ++ " = @import(\"../../../" ++ import_name
    ++ ".zig\");\n"
    ++ "\n"
    ++ "/// Number of functions in this bridge\n"

/-- The emitted function-count constant (source line 232):
`pub const FUNCTION_COUNT = {len(functions)};`. -/
def count_decl (n : Nat) : String :=
  "pub const FUNCTION_COUNT = " ++ Nat.repr n ++ ";"

/-- The template from just after the count constant through the line that
opens the registration-table literal (source lines 233–247). -/
def error_register_head (bridge_name : String) : String :=
  "\n"
    ++ "\n"
    ++ "/// " ++ pyTitle bridge_name
    ++ " bridge errors specific to Lua integration\n"
    ++ "pub const Lua" ++ pyTitle bridge_name ++ "Error = error\x7b\n"
    ++ "    Invalid" ++ pyTitle bridge_name ++ ",\n"
    ++ "    " ++ pyTitle bridge_name ++ "NotFound,\n"
    ++ "    InvalidDefinition,\n"
    ++ "    ExecutionFailed,\n"
    ++ "\x7d || LuaAPIBridge.LuaAPIBridgeError;\n"
    ++ "\n"
    ++ "/// Register all " ++ bridge_name ++ " bridge functions with Lua\n"
    ++ "pub fn register(wrapper: *LuaWrapper, context: *ScriptContext) LuaAPIBridge.LuaAPIBridgeError!void \x7b\n"
    ++ "    LuaAPIBridge.setScriptContext(wrapper.state, context);\n"
    ++ "    LuaAPIBridge.presizeStack(wrapper, FUNCTION_COUNT + 5);\n"
    ++ "    \n"
    ++ "    const functions = [_]struct \x7b name: []const u8, func: lua.c.lua_CFunction \x7d \x7b\n"

/-- The template from just after the joined registration entries through the
end of `register` and the following blank line (source lines 249–259). -/
def register_tail (bridge_name : String) : String :=
  "\n    \x7d;\n"
    ++ "    \n"
    ++ "    for (functions) |func| \x7b\n"
    ++ "        lua.c.lua_pushcfunction(wrapper.state, func.func);\n"
    ++ "        lua.c.lua_setfield(wrapper.state, -2, func.name.ptr);\n"
    ++ "    \x7d\n"
    ++ "    \n"
    ++ "    addConstants(wrapper.state);\n"
    ++ "    std.log.debug(\"Registered \x7b\x7d " ++ bridge_name
    ++ " bridge functions\", .\x7bfunctions.len\x7d);\n"
    ++ "\x7d\n"
    ++ "\n"

/-- The unconditional `cleanup` routine (source lines 260–262): its body is
the single no-op debug log statement. -/
def cleanup_decl (bridge_name : String) : String :=
  "pub fn cleanup() void \x7b\n    std.log.debug(\"Cleaning up "
    ++ bridge_name ++ " bridge resources\");\n\x7d"

/-- The blank line after `cleanup` and the opening of `addConstants`
(source line 264 up to its first brace). -/
def add_constants_head : String :=
  "\n" ++ "\n" ++ "fn addConstants(L: ?*lua.c.lua_State) void \x7b"

/-- The close of `addConstants` and the section-comment line that precedes
the joined wrapper implementations (source lines 265–267). -/
def impl_section_head : String :=
  "\n\x7d" ++ "\n" ++ "\n" ++ "// Lua C Function Implementations\n"

/-- Embedding of `generate_bridge_file(bridge_name, config)` (source lines
140–270): the full module text, assembled exactly as the Python f-string
`file_content` does — the named section pieces above concatenated around the
three `chr(10).join(...)` joins, rendered as `String.intercalate "\n"`. -/
def generate_bridge_file (bridge_name : String) (config : Config) : String :=
  let functions := config.functions
  let constants := (config.constants).getD []
  let function_defs := functions.map (fun f => function_def_entry bridge_name f.1)
  let function_impls := functions.map (fun f => func_impl bridge_name f.1 f.2)
  let constants_code := constants.map (fun g => const_block g.1 g.2)
  module_header bridge_name config.import_name config.description
    ++ count_decl functions.length
    ++ error_register_head bridge_name
    ++ String.intercalate "\n" function_defs
    ++ register_tail bridge_name
    ++ cleanup_decl bridge_name
    ++ add_constants_head
    ++ String.intercalate "\n" constants_code
    ++ impl_section_head
    ++ String.intercalate "\n" function_impls

/-- The static `BRIDGE_CONFIGS` table (source lines 11–138), in its
insertion order — the order `main` iterates it in. -/
def BRIDGE_CONFIGS : List (String × Config) :=
  [("provider",
    ⟨[("chat", "zigllms.provider.chat(messages, options?) -> response"),
      ("configure", "zigllms.provider.configure(provider_id, config) -> success"),
      ("list", "zigllms.provider.list() -> provider_list"),
      ("get", "zigllms.provider.get(provider_id) -> provider_info"),
      ("create", "zigllms.provider.create(config) -> provider_id"),
      ("destroy", "zigllms.provider.destroy(provider_id) -> success"),
      ("stream", "zigllms.provider.stream(messages, callback, options?) -> stream_id"),
      ("get_models", "zigllms.provider.get_models(provider_id) -> model_list")],
     some [("Type", ["OPENAI", "ANTHROPIC", "COHERE", "LOCAL"]),
           ("Status", ["ACTIVE", "INACTIVE", "ERROR", "INITIALIZING"])],
     "provider",
     "LLM provider access and configuration"⟩),
   ("event",
    ⟨[("emit", "zigllms.event.emit(event_name, data) -> success"),
      ("subscribe", "zigllms.event.subscribe(event_name, callback) -> subscription_id"),
      ("unsubscribe", "zigllms.event.unsubscribe(subscription_id) -> success"),
      ("list_subscriptions", "zigllms.event.list_subscriptions() -> subscription_list"),
      ("filter", "zigllms.event.filter(pattern, callback) -> filter_id"),
      ("record", "zigllms.event.record(event_name, duration?) -> recorder_id"),
      ("replay", "zigllms.event.replay(recorder_id, options?) -> success"),
      ("clear", "zigllms.event.clear(event_name?) -> success")],
     some [("Type", ["SYSTEM", "USER", "AGENT", "TOOL", "WORKFLOW"]),
           ("Priority", ["LOW", "NORMAL", "HIGH", "CRITICAL"])],
     "event",
     "Event emission and subscription"⟩),
   ("test",
    ⟨[("create_scenario", "zigllms.test.create_scenario(definition) -> scenario_id"),
      ("run_scenario", "zigllms.test.run_scenario(scenario_id, options?) -> result"),
      ("assert_equals", "zigllms.test.assert_equals(actual, expected, message?) -> success"),
      ("assert_contains", "zigllms.test.assert_contains(haystack, needle, message?) -> success"),
      ("create_mock", "zigllms.test.create_mock(definition) -> mock_id"),
      ("setup_fixture", "zigllms.test.setup_fixture(fixture_data) -> fixture_id"),
      ("run_suite", "zigllms.test.run_suite(suite_definition) -> suite_result"),
      ("get_coverage", "zigllms.test.get_coverage() -> coverage_report")],
     some [("AssertType", ["EQUALS", "CONTAINS", "MATCHES", "THROWS"]),
           ("MockType", ["FUNCTION", "OBJECT", "SERVICE"])],
     "test",
     "Testing and mocking framework"⟩),
   ("schema",
    ⟨[("validate", "zigllms.schema.validate(data, schema) -> validation_result"),
      ("generate", "zigllms.schema.generate(example_data) -> schema"),
      ("coerce", "zigllms.schema.coerce(data, schema) -> coerced_data"),
      ("extract", "zigllms.schema.extract(data, schema) -> extracted_data"),
      ("merge", "zigllms.schema.merge(schema1, schema2) -> merged_schema"),
      ("create", "zigllms.schema.create(definition) -> schema"),
      ("compile", "zigllms.schema.compile(schema_source) -> compiled_schema"),
      ("get_info", "zigllms.schema.get_info(schema) -> schema_info")],
     some [("Type", ["OBJECT", "ARRAY", "STRING", "NUMBER", "BOOLEAN", "NULL"]),
           ("Format", ["EMAIL", "URI", "DATE", "UUID"])],
     "schema",
     "JSON schema validation and generation"⟩),
   ("memory",
    ⟨[("store", "zigllms.memory.store(key, value, options?) -> success"),
      ("retrieve", "zigllms.memory.retrieve(key) -> value"),
      ("delete", "zigllms.memory.delete(key) -> success"),
      ("list_keys", "zigllms.memory.list_keys(pattern?) -> key_list"),
      ("clear", "zigllms.memory.clear() -> success"),
      ("get_stats", "zigllms.memory.get_stats() -> memory_stats"),
      ("persist", "zigllms.memory.persist(path) -> success"),
      ("load", "zigllms.memory.load(path) -> success")],
     some [("Type", ["SHORT_TERM", "LONG_TERM", "PERSISTENT"]),
           ("Scope", ["GLOBAL", "AGENT", "SESSION"])],
     "memory",
     "Memory management and conversation history"⟩),
   ("hook",
    ⟨[("register", "zigllms.hook.register(hook_name, callback, priority?) -> hook_id"),
      ("unregister", "zigllms.hook.unregister(hook_id) -> success"),
      ("execute", "zigllms.hook.execute(hook_name, data) -> hook_results"),
      ("list", "zigllms.hook.list(hook_name?) -> hook_list"),
      ("enable", "zigllms.hook.enable(hook_id) -> success"),
      ("disable", "zigllms.hook.disable(hook_id) -> success"),
      ("get_info", "zigllms.hook.get_info(hook_id) -> hook_info"),
      ("compose", "zigllms.hook.compose(hook_ids, composition_type) -> composed_hook_id")],
     some [("Type", ["PRE", "POST", "AROUND", "ERROR"]),
           ("Priority", ["HIGHEST", "HIGH", "NORMAL", "LOW", "LOWEST"])],
     "hook",
     "Lifecycle hooks and middleware"⟩),
   ("output",
    ⟨[("parse", "zigllms.output.parse(data, format?) -> parsed_data"),
      ("format", "zigllms.output.format(data, target_format) -> formatted_data"),
      ("detect_format", "zigllms.output.detect_format(data) -> format_info"),
      ("validate_format", "zigllms.output.validate_format(data, format) -> validation_result"),
      ("extract_json", "zigllms.output.extract_json(text) -> json_data"),
      ("extract_markdown", "zigllms.output.extract_markdown(text) -> markdown_data"),
      ("recover", "zigllms.output.recover(malformed_data, format) -> recovered_data"),
      ("get_schema", "zigllms.output.get_schema(format) -> format_schema")],
     some [("Format", ["JSON", "YAML", "XML", "MARKDOWN", "PLAIN"]),
           ("Recovery", ["STRICT", "LENIENT", "BEST_EFFORT"])],
     "output",
     "Output parsing and format detection"⟩)]

/-- The output directory hard-coded in `main` (source line 274). -/
def base_dir : String :=
  "/Users/spuri/projects/lexlapax/zig_llms/src/scripting/engines/lua_bridges"

/-- One file written by the batch loop: its path and its full content. -/
structure WriteEvent where
  path : String
  content : String
deriving DecidableEq

/-- Embedding of the batch loop of `main` (source lines 272–283). Python
iterates the configuration mapping in insertion order; for each entry it
renders the module, writes it to `f"{base_dir}/{bridge_name}_bridge.zig"`,
and reports the path. An exception raised while rendering or writing a
domain propagates and aborts the remaining iteration. The possibility of
such an exception is modelled by the oracle `failure`: `failure name = some e`
means rendering-or-writing that domain raises error `e` (its write is then
not performed). The result is the list of writes performed, in order, and
the aborting domain's name and error if the loop was aborted. -/
def main (failure : String → Option String) :
    List (String × Config) → List WriteEvent × Option (String × String)
  | [] => ([], none)
  | bc :: rest =>
    match failure bc.1 with
    | some e => ([], some (bc.1, e))
    | none =>
      (⟨base_dir ++ "/" ++ bc.1 ++ "_bridge.zig",
        generate_bridge_file bc.1 bc.2⟩ :: (main failure rest).1,
       (main failure rest).2)

/-- The identifier-derivation algorithm exactly as §4.2 of the spec words it
— "title-case each underscore-delimited segment of `domain_name` and of
`function_name`, strip the separators, concatenate with a fixed prefix" —
written as a second definition for comparison with the source's
`lua_func_name`. Title-casing each underscore-delimited segment is `pyTitle`
(Python title-casing restarts at every non-alphabetic character, hence at
each underscore), after which `removeUnderscores` strips the separators of
BOTH names, as the spec demands. -/
def spec_wrapper_identifier (domain_name func_name : String) : String :=
  "lua" ++ removeUnderscores (pyTitle domain_name)
    ++ removeUnderscores (pyTitle func_name)

/-- A Domain whose two Functions share the name `store`: input for the
uniqueness-validation claims. -/
def dup_store_config : Config :=
  ⟨[("store", "zigllms.memory.store(key, value, options?) -> success"),
    ("store", "duplicate of store")],
   some [], "memory", "Memory management and conversation history"⟩

/-- A Domain whose two distinct Functions `a1b` and `a1_b` derive the same
wrapper identifier `luaMemoryA1B`: input for the collision claims. -/
def collide_config : Config :=
  ⟨[("a1b", "first colliding function"),
    ("a1_b", "second colliding function")],
   some [], "memory", "Memory management and conversation history"⟩

/-- A configuration whose dictionary omits the `"constants"` key. -/
def memory_no_constants : Config :=
  ⟨[("store", "zigllms.memory.store(key, value, options?) -> success")],
   none, "memory", "Memory management and conversation history"⟩

/-- First domain of the three-domain batch scenario. -/
def batch_pre : List (String × Config) :=
  [("alpha", ⟨[("go", "alpha.go() -> ok")], some [], "alpha",
    "first demo domain"⟩)]

/-- Second domain of the three-domain batch scenario, the one that fails. -/
def batch_bad : String × Config :=
  ("beta", ⟨[("go", "beta.go() -> ok")], some [], "beta",
   "second demo domain"⟩)

/-- Third domain of the three-domain batch scenario. -/
def batch_post : List (String × Config) :=
  [("gamma", ⟨[("go", "gamma.go() -> ok")], some [], "gamma",
    "third demo domain"⟩)]

/-- Failure oracle under which exactly the domain named `beta` fails. -/
def beta_fails : String → Option String :=
  fun bridge_name =>
    if bridge_name = "beta" then some "validation failed" else none

/-- `titleChar` never manufactures an underscore: ASCII case-mapping moves
letters only within the letter ranges. -/
theorem titleChar_ne_underscore (prev : Bool) (c : Char) (hc : c ≠ '_') :
    titleChar prev c ≠ '_' := by
  unfold titleChar
  split
  · rename_i halpha
    split
    · unfold Char.toLower
      dsimp only
      split
      · rename_i hr
        obtain ⟨h1, h2⟩ := hr
        generalize c.toNat = n at h1 h2
        interval_cases n <;> decide
      · exact hc
    · unfold Char.toUpper
      dsimp only
      split
      · rename_i hr
        obtain ⟨h1, h2⟩ := hr
        generalize c.toNat = n at h1 h2
        interval_cases n <;> decide
      · exact hc
  · exact hc

/-- Title-casing a string without underscores yields a string without
underscores. -/
theorem titleAux_no_underscore (l : List Char) (prev : Bool) (h : '_' ∉ l) :
    '_' ∉ titleAux prev l := by
  induction l generalizing prev with
  | nil => simp [titleAux]
  | cons c cs ih =>
    simp only [titleAux, List.mem_cons, not_or] at h ⊢
    refine ⟨fun heq => ?_, ih _ h.2⟩
    exact titleChar_ne_underscore prev c (fun hce => h.1 hce.symm) heq.symm

/-- On a string without underscores, stripping underscores after title-casing
is the identity. -/
theorem removeUnderscores_pyTitle_of_no_underscore (s : String)
    (h : '_' ∉ s.data) : removeUnderscores (pyTitle s) = pyTitle s := by
  unfold removeUnderscores pyTitle
  congr 1
  rw [List.filter_eq_self]
  intro a ha
  have hne := titleAux_no_underscore s.data false h
  simp only [ne_eq, decide_eq_true_eq]
  exact fun heq => hne (heq ▸ ha)

/-- `String.intercalate` on a two-element list. -/
theorem intercalate_pair (sep a b : String) :
    String.intercalate sep [a, b] = a ++ sep ++ b :=
  rfl

/-- Claim C1: for every Domain input, the generated module's function count
constant `FUNCTION_COUNT` equals the number of declared Functions, and the
emitted registration table is exactly one entry per declared Function — in
declared order — pairing the function's short name with its derived wrapper
identifier. -/
theorem c1_count_and_registration_table (bridge_name : String) (config : Config) :
    ∃ p q s, generate_bridge_file bridge_name config
      = p ++ ("pub const FUNCTION_COUNT = " ++ Nat.repr config.functions.length ++ ";")
        ++ q
        ++ String.intercalate "\n" (config.functions.map (fun f =>
             "        .\x7b .name = \"" ++ f.1 ++ "\", .func = "
               ++ lua_func_name bridge_name f.1 ++ " \x7d,"))
        ++ s := by
  refine ⟨module_header bridge_name config.import_name config.description,
    error_register_head bridge_name,
    register_tail bridge_name
      ++ cleanup_decl bridge_name
      ++ add_constants_head
      ++ String.intercalate "\n"
          (((config.constants).getD []).map (fun g => const_block g.1 g.2))
      ++ impl_section_head
      ++ String.intercalate "\n"
          (config.functions.map (fun f => func_impl bridge_name f.1 f.2)), ?_⟩
  simp only [generate_bridge_file, count_decl, function_def_entry,
    String.append_assoc]

/-- Claim C2: for every Domain, the constant-installation code consists of
one block per ConstantGroup in declared order; each block creates a fresh
table, inserts — per symbolic value, in order — an entry whose string value is
the lowercase transform and whose field key is the exact symbolic name, and
attaches the table to the namespace under the group's own name. -/
theorem c2_constant_groups_round_trip (bridge_name : String) (config : Config) :
    ∃ p s, generate_bridge_file bridge_name config
      = p
        ++ String.intercalate "\n" (((config.constants).getD []).map (fun g =>
             "\n    // " ++ g.1 ++ " constants\n    lua.c.lua_newtable(L);\n    "
               ++ String.join (g.2.map (fun value =>
                   "\n    lua.c.lua_pushstring(L, \"" ++ pyLower value ++ "\");\n"
                     ++ "    lua.c.lua_setfield(L, -2, \"" ++ value ++ "\");"))
               ++ "\n    \n    lua.c.lua_setfield(L, -2, \"" ++ g.1 ++ "\");"))
        ++ s := by
  refine ⟨module_header bridge_name config.import_name config.description
      ++ count_decl config.functions.length
      ++ error_register_head bridge_name
      ++ String.intercalate "\n"
          (config.functions.map (fun f => function_def_entry bridge_name f.1))
      ++ register_tail bridge_name
      ++ cleanup_decl bridge_name
      ++ add_constants_head,
    impl_section_head
      ++ String.intercalate "\n"
          (config.functions.map (fun f => func_impl bridge_name f.1 f.2)), ?_⟩
  simp only [generate_bridge_file, const_block, String.append_assoc]

/-- Claim C3: rendering is deterministic — for every (bridge name,
configuration) input, two invocations of the renderer yield byte-identical
module text. In this embedding `generate_bridge_file` is a pure total
function of its two arguments (the source consults no clock, environment or
other ambient state), so the two renders are definitionally equal. -/
theorem c3_rendering_deterministic (bridge_name : String) (config : Config) :
    generate_bridge_file bridge_name config
      = generate_bridge_file bridge_name config :=
  rfl

/-- Claim C9: every rendered module — whatever its functions or constant
groups — contains the no-argument `cleanup` routine whose body is exactly the
single no-op debug-log statement. -/
theorem c9_cleanup_always_emitted (bridge_name : String) (config : Config) :
    ∃ p s, generate_bridge_file bridge_name config
      = p ++ ("pub fn cleanup() void \x7b\n    std.log.debug(\"Cleaning up "
              ++ bridge_name ++ " bridge resources\");\n\x7d") ++ s := by
  refine ⟨module_header bridge_name config.import_name config.description
      ++ count_decl config.functions.length
      ++ error_register_head bridge_name
      ++ String.intercalate "\n"
          (config.functions.map (fun f => function_def_entry bridge_name f.1))
      ++ register_tail bridge_name,
    add_constants_head
      ++ String.intercalate "\n"
          (((config.constants).getD []).map (fun g => const_block g.1 g.2))
      ++ impl_section_head
      ++ String.intercalate "\n"
          (config.functions.map (fun f => func_impl bridge_name f.1 f.2)), ?_⟩
  simp only [generate_bridge_file, cleanup_decl, String.append_assoc]

/-- Claim C10: a configuration whose dictionary omits the `"constants"` key
(`constants = none`) still renders: the output is identical to rendering with
an explicitly empty constant list, and it contains an `addConstants` routine
whose body is empty. -/
theorem c10_missing_constants_key (bridge_name : String) (config : Config)
    (h : config.constants = none) :
    generate_bridge_file bridge_name config
      = generate_bridge_file bridge_name
          ⟨config.functions, some [], config.import_name, config.description⟩
    ∧ (∃ p s, generate_bridge_file bridge_name config
        = p ++ ("fn addConstants(L: ?*lua.c.lua_State) void \x7b" ++ "\n\x7d") ++ s)
    ∧ ("fn addConstants(L: ?*lua.c.lua_State) void \x7b" ++ "\n\x7d" : String)
      = "fn addConstants(L: ?*lua.c.lua_State) void \x7b\n\x7d" := by
  refine ⟨?_, ⟨module_header bridge_name config.import_name config.description
      ++ count_decl config.functions.length
      ++ error_register_head bridge_name
      ++ String.intercalate "\n"
          (config.functions.map (fun f => function_def_entry bridge_name f.1))
      ++ register_tail bridge_name
      ++ cleanup_decl bridge_name
      ++ "\n" ++ "\n",
    "\n" ++ "\n" ++ "// Lua C Function Implementations\n"
      ++ String.intercalate "\n"
          (config.functions.map (fun f => func_impl bridge_name f.1 f.2)), ?_⟩,
    by decide⟩
  · simp only [generate_bridge_file, h, Option.getD_none, Option.getD_some]
  · simp only [generate_bridge_file, h, Option.getD_none, add_constants_head,
      impl_section_head, List.map_nil, String.intercalate, String.append_assoc,
      String.empty_append]

/-- Witness for C10: the concrete configuration `memory_no_constants`, whose
dictionary omits the `"constants"` key, renders like an empty constant list
and contains the empty-bodied `addConstants` routine. -/
theorem c10_missing_constants_key_witness :
    generate_bridge_file "memory" memory_no_constants
      = generate_bridge_file "memory"
          ⟨memory_no_constants.functions, some [],
           memory_no_constants.import_name, memory_no_constants.description⟩
    ∧ (∃ p s, generate_bridge_file "memory" memory_no_constants
        = p ++ ("fn addConstants(L: ?*lua.c.lua_State) void \x7b" ++ "\n\x7d") ++ s)
    ∧ ("fn addConstants(L: ?*lua.c.lua_State) void \x7b" ++ "\n\x7d" : String)
      = "fn addConstants(L: ?*lua.c.lua_State) void \x7b\n\x7d" :=
  c10_missing_constants_key "memory" memory_no_constants rfl

/-- Counterexample to claim C4: the Domain `dup_store_config`, whose two
Functions share the name `store`, is not rejected — no `InvalidDomain` (or
any other) failure exists in the generator — and rendering produces nonempty
module text whose registration table holds the duplicated entry twice. -/
theorem c4_counterexample :
    (∃ p s, generate_bridge_file "memory" dup_store_config
      = p ++ ("        .\x7b .name = \"store\", .func = luaMemoryStore \x7d,\n        .\x7b .name = \"store\", .func = luaMemoryStore \x7d,") ++ s)
    ∧ (generate_bridge_file "memory" dup_store_config).length ≠ 0 := by
  have h2 : String.intercalate "\n"
      (dup_store_config.functions.map (fun f => function_def_entry "memory" f.1))
      = "        .\x7b .name = \"store\", .func = luaMemoryStore \x7d,\n        .\x7b .name = \"store\", .func = luaMemoryStore \x7d," := by
    decide
  have hX : ("        .\x7b .name = \"store\", .func = luaMemoryStore \x7d,\n        .\x7b .name = \"store\", .func = luaMemoryStore \x7d," : String).length ≠ 0 := by
    decide
  have hdec : generate_bridge_file "memory" dup_store_config
      = (module_header "memory" dup_store_config.import_name dup_store_config.description
          ++ count_decl dup_store_config.functions.length
          ++ error_register_head "memory")
        ++ ("        .\x7b .name = \"store\", .func = luaMemoryStore \x7d,\n        .\x7b .name = \"store\", .func = luaMemoryStore \x7d,")
        ++ (register_tail "memory" ++ cleanup_decl "memory" ++ add_constants_head
          ++ String.intercalate "\n"
              ((dup_store_config.constants.getD []).map (fun g => const_block g.1 g.2))
          ++ impl_section_head
          ++ String.intercalate "\n"
              (dup_store_config.functions.map (fun f => func_impl "memory" f.1 f.2))) := by
    simp only [generate_bridge_file, h2, String.append_assoc]
  constructor
  · exact ⟨_, _, hdec⟩
  · rw [hdec]
    simp only [String.length_append]
    omega

/-- Claim C4 (amended): the generator performs no uniqueness validation — a
Domain whose two Functions share a name is rendered normally, its
registration table carrying one entry per occurrence of the duplicated
name. -/
theorem c4_amended_duplicates_render (bridge_name f d1 d2 : String)
    (config : Config) (h : config.functions = [(f, d1), (f, d2)]) :
    ∃ p s, generate_bridge_file bridge_name config
      = p ++ ("        .\x7b .name = \"" ++ f ++ "\", .func = "
              ++ lua_func_name bridge_name f ++ " \x7d,"
              ++ "\n"
              ++ ("        .\x7b .name = \"" ++ f ++ "\", .func = "
                  ++ lua_func_name bridge_name f ++ " \x7d,")) ++ s := by
  refine ⟨module_header bridge_name config.import_name config.description
      ++ count_decl config.functions.length
      ++ error_register_head bridge_name,
    register_tail bridge_name ++ cleanup_decl bridge_name ++ add_constants_head
      ++ String.intercalate "\n"
          (((config.constants).getD []).map (fun g => const_block g.1 g.2))
      ++ impl_section_head
      ++ (func_impl bridge_name f d1 ++ "\n" ++ func_impl bridge_name f d2), ?_⟩
  simp only [generate_bridge_file, h, List.map_cons, List.map_nil,
    intercalate_pair, function_def_entry, String.append_assoc]

/-- Witness for the amended C4 at the concrete duplicate-name Domain. -/
theorem c4_amended_duplicates_render_witness :
    ∃ p s, generate_bridge_file "memory" dup_store_config
      = p ++ ("        .\x7b .name = \"" ++ "store" ++ "\", .func = "
              ++ lua_func_name "memory" "store" ++ " \x7d,"
              ++ "\n"
              ++ ("        .\x7b .name = \"" ++ "store" ++ "\", .func = "
                  ++ lua_func_name "memory" "store" ++ " \x7d,")) ++ s :=
  c4_amended_duplicates_render "memory" "store"
    "zigllms.memory.store(key, value, options?) -> success"
    "duplicate of store" dup_store_config rfl

/-- Counterexample to claim C5: the source strips underscores only from the
function name. For domain name `ab_cd` the code derives `luaAb_CdStore`,
while the spec's algorithm — strip the separators from both names — derives
`luaAbCdStore`. -/
theorem c5_counterexample :
    lua_func_name "ab_cd" "store" = "luaAb_CdStore"
    ∧ spec_wrapper_identifier "ab_cd" "store" = "luaAbCdStore"
    ∧ lua_func_name "ab_cd" "store" ≠ spec_wrapper_identifier "ab_cd" "store" := by
  decide

/-- Claim C5 (amended): the derivation title-cases both names but strips the
underscore separators only from the function name; whenever the domain name
itself contains no underscore — true of every configured domain — the code's
identifier coincides with the spec's algorithm. -/
theorem c5_amended_derivation (domain_name func_name : String)
    (hd : '_' ∉ domain_name.data) :
    lua_func_name domain_name func_name
      = spec_wrapper_identifier domain_name func_name := by
  unfold lua_func_name spec_wrapper_identifier
  rw [removeUnderscores_pyTitle_of_no_underscore domain_name hd]

/-- Witness for the amended C5 at the spec's own example: domain `memory`
and function `list_keys` derive `luaMemoryListKeys`. -/
theorem c5_amended_derivation_witness :
    lua_func_name "memory" "list_keys"
      = spec_wrapper_identifier "memory" "list_keys"
    ∧ lua_func_name "memory" "list_keys" = "luaMemoryListKeys" :=
  ⟨c5_amended_derivation "memory" "list_keys" (by decide), by decide⟩

/-- Counterexample to claim C6: the derivation is not injective. The distinct
function names `a1b` and `a1_b` of the same domain `memory` derive the same
wrapper identifier, because an underscore adjacent to a digit is erased
without leaving a casing trace. -/
theorem c6_counterexample :
    ("a1b" : String) ≠ "a1_b"
    ∧ lua_func_name "memory" "a1b" = "luaMemoryA1B"
    ∧ lua_func_name "memory" "a1_b" = "luaMemoryA1B" := by
  decide

/-- Claim C6 (amended): while the derivation is not injective on arbitrary
pairs, the 56 wrapper identifiers derived from the declared configuration
(`BRIDGE_CONFIGS`) are pairwise distinct. -/
theorem c6_amended_nodup_on_configs :
    ((BRIDGE_CONFIGS.map (fun bc =>
        bc.2.functions.map (fun f => lua_func_name bc.1 f.1))).flatten).Nodup := by
  decide

/-- Counterexample to claim C7: the Domain `collide_config` has two Functions
whose derived identifiers are both `luaMemoryA1B`, yet rendering raises no
`DuplicateIdentifier` error — no such error exists in the generator — and
produces nonempty module text containing both colliding entries. -/
theorem c7_counterexample :
    lua_func_name "memory" "a1b" = lua_func_name "memory" "a1_b"
    ∧ ("a1b" : String) ≠ "a1_b"
    ∧ (∃ p s, generate_bridge_file "memory" collide_config
      = p ++ ("        .\x7b .name = \"a1b\", .func = luaMemoryA1B \x7d,\n        .\x7b .name = \"a1_b\", .func = luaMemoryA1B \x7d,") ++ s)
    ∧ (generate_bridge_file "memory" collide_config).length ≠ 0 := by
  have h2 : String.intercalate "\n"
      (collide_config.functions.map (fun f => function_def_entry "memory" f.1))
      = "        .\x7b .name = \"a1b\", .func = luaMemoryA1B \x7d,\n        .\x7b .name = \"a1_b\", .func = luaMemoryA1B \x7d," := by
    decide
  have hX : ("        .\x7b .name = \"a1b\", .func = luaMemoryA1B \x7d,\n        .\x7b .name = \"a1_b\", .func = luaMemoryA1B \x7d," : String).length ≠ 0 := by
    decide
  have hdec : generate_bridge_file "memory" collide_config
      = (module_header "memory" collide_config.import_name collide_config.description
          ++ count_decl collide_config.functions.length
          ++ error_register_head "memory")
        ++ ("        .\x7b .name = \"a1b\", .func = luaMemoryA1B \x7d,\n        .\x7b .name = \"a1_b\", .func = luaMemoryA1B \x7d,")
        ++ (register_tail "memory" ++ cleanup_decl "memory" ++ add_constants_head
          ++ String.intercalate "\n"
              ((collide_config.constants.getD []).map (fun g => const_block g.1 g.2))
          ++ impl_section_head
          ++ String.intercalate "\n"
              (collide_config.functions.map (fun f => func_impl "memory" f.1 f.2))) := by
    simp only [generate_bridge_file, h2, String.append_assoc]
  refine ⟨by decide, by decide, ⟨_, _, hdec⟩, ?_⟩
  rw [hdec]
  simp only [String.length_append]
  omega

/-- Claim C7 (amended): rendering performs no duplicate-identifier check —
when two derived identifiers within the same Domain are equal, a module is
produced anyway, its registration table pairing both function names with the
one shared identifier. -/
theorem c7_amended_collisions_render (bridge_name f1 f2 d1 d2 : String)
    (config : Config) (hf : config.functions = [(f1, d1), (f2, d2)])
    (hcol : lua_func_name bridge_name f1 = lua_func_name bridge_name f2) :
    ∃ p s, generate_bridge_file bridge_name config
      = p ++ ("        .\x7b .name = \"" ++ f1 ++ "\", .func = "
              ++ lua_func_name bridge_name f1 ++ " \x7d,"
              ++ "\n"
              ++ ("        .\x7b .name = \"" ++ f2 ++ "\", .func = "
                  ++ lua_func_name bridge_name f1 ++ " \x7d,")) ++ s := by
  refine ⟨module_header bridge_name config.import_name config.description
      ++ count_decl config.functions.length
      ++ error_register_head bridge_name,
    register_tail bridge_name ++ cleanup_decl bridge_name ++ add_constants_head
      ++ String.intercalate "\n"
          (((config.constants).getD []).map (fun g => const_block g.1 g.2))
      ++ impl_section_head
      ++ (func_impl bridge_name f1 d1 ++ "\n" ++ func_impl bridge_name f2 d2), ?_⟩
  simp only [generate_bridge_file, hf, List.map_cons, List.map_nil,
    intercalate_pair, function_def_entry, String.append_assoc]
  rw [hcol]

/-- Witness for the amended C7 at the concrete colliding Domain. -/
theorem c7_amended_collisions_render_witness :
    ∃ p s, generate_bridge_file "memory" collide_config
      = p ++ ("        .\x7b .name = \"" ++ "a1b" ++ "\", .func = "
              ++ lua_func_name "memory" "a1b" ++ " \x7d,"
              ++ "\n"
              ++ ("        .\x7b .name = \"" ++ "a1_b" ++ "\", .func = "
                  ++ lua_func_name "memory" "a1b" ++ " \x7d,")) ++ s :=
  c7_amended_collisions_render "memory" "a1b" "a1_b"
    "first colliding function" "second colliding function"
    collide_config rfl (by decide)

/-- Claim C8: the batch driver is fail-fast. If every domain before the k-th
succeeds and the k-th fails (while rendering or writing), then exactly the
domains before the k-th have been written, in iteration order, no output is
written for the k-th or any later domain, and the failing domain's name and
error are surfaced. -/
theorem c8_fail_fast_batch (failure : String → Option String)
    (pre : List (String × Config)) (bad : String × Config)
    (post : List (String × Config)) (e : String)
    (hpre : ∀ bc ∈ pre, failure bc.1 = none) (hbad : failure bad.1 = some e) :
    main failure (pre ++ bad :: post)
      = (pre.map (fun bc =>
          (⟨base_dir ++ "/" ++ bc.1 ++ "_bridge.zig",
            generate_bridge_file bc.1 bc.2⟩ : WriteEvent)),
         some (bad.1, e)) := by
  induction pre with
  | nil =>
    simp only [List.nil_append, List.map_nil]
    unfold main
    rw [hbad]
  | cons hd tl ih =>
    have h1 : failure hd.1 = none := hpre hd (List.mem_cons_self _ _)
    have h2 : ∀ bc ∈ tl, failure bc.1 = none :=
      fun bc hm => hpre bc (List.mem_cons_of_mem _ hm)
    simp only [List.cons_append, List.map_cons]
    unfold main
    rw [h1, ih h2]

/-- Witness for C8: three demo domains of which the second fails — the first
domain's module is written, the second and third are not, and the failing
domain's name and error are surfaced. -/
theorem c8_fail_fast_batch_witness :
    main beta_fails (batch_pre ++ batch_bad :: batch_post)
      = (batch_pre.map (fun bc =>
          (⟨base_dir ++ "/" ++ bc.1 ++ "_bridge.zig",
            generate_bridge_file bc.1 bc.2⟩ : WriteEvent)),
         some (batch_bad.1, "validation failed")) :=
  c8_fail_fast_batch beta_fails batch_pre batch_bad batch_post
    "validation failed" (by decide) (by decide)

end GenLuaBridges
